import Mathlib

/-!
Verification of the MyMiniSTL dynamic array (`src/vector.h`) and allocators
(`src/allocator.h`, `src/exceptdef.h`) against their natural-language
specification.

The shallow embedding replaces raw pointers by indices into an explicit
buffer: a `sugar::vector<T>` with data pointers `begin_`, `end_`, `end_cap_`
becomes a list `buf` of length `end_cap_ - begin_` (the capacity) together
with a number `size = end_ - begin_`.  A C++ write `*p = x` becomes
`buf.set i x`, a read `*p` becomes `buf.getD i default`.  Freshly allocated
raw storage is modelled by `List.replicate cap default`.  Construction and
destruction calls, which the exception-safety claims are about, are recorded
in explicit traces by the instrumented reallocation function.  Loops are
translated with an explicit iteration count equal to the number of times the
corresponding C++ loop executes, so every definition computes by structural
recursion.
-/

namespace MiniSTL

/-- The model of `sugar::vector<T>` (src/vector.h lines 48-53): `buf` is the
allocated buffer (`capacity() = buf.length` slots, live prefix of length
`size`), `size = end_ - begin_`.  A null `begin_` is modelled by `buf = []`. -/
structure Vec (α : Type) where
  buf : List α
  size : Nat
deriving DecidableEq, Repr

/-- `vector::capacity()` (src/vector.h line 592): `end_cap_ - begin_`. -/
def capacity {α : Type} (v : Vec α) : Nat := v.buf.length

/-- The default-constructed vector (src/vector.h line 151): all three
pointers null. -/
def vecNil {α : Type} : Vec α := { buf := [], size := 0 }

/-- The live contents `[begin_, end_)` of the vector. -/
def contents {α : Type} (v : Vec α) : List α := v.buf.take v.size

/-- `vector::calculate_new_capacity` (src/vector.h lines 62-73). -/
def calculateNewCapacity {α : Type} (v : Vec α) (newSize : Nat) : Nat :=
  let oldCapacity := capacity v
  if newSize > oldCapacity then
    let newCapacity := if oldCapacity = 0 then 1 else oldCapacity * 2
    if newCapacity < newSize then newSize else newCapacity
  else oldCapacity

/-- Construction/destruction trace of one `vector::reallocate` call.
`newDestroyed` / `oldDestroyed` list the destroyed slot indices of the new
and old buffer in destruction order, `newFreed` / `oldFreed` record the
`deallocate` calls, `threw` records whether the exception escaped. -/
structure ReallocTrace where
  newDestroyed : List Nat := []
  newFreed : Bool := false
  oldDestroyed : List Nat := []
  oldFreed : Bool := false
  threw : Bool := false
deriving DecidableEq, Repr

/-- The move-construction loop of `vector::reallocate` (src/vector.h lines
88-100): `for (p = begin_; p != end_; ++p, ++new_end) construct(new_end,
move(*p))`.  The loop body runs once per live element, so the iteration
count is passed explicitly.  `failAt = some k` injects a throwing
move-construction at 0-based element `k`; the error value is the number of
elements already constructed in the new buffer when the exception is
raised (`new_end - new_begin`). -/
def moveConstructLoop {α : Type} [Inhabited α] (old : List α) (failAt : Option Nat)
    (newBuf : List α) (i : Nat) : Nat → Except Nat (List α)
  | 0 => .ok newBuf
  | remaining + 1 =>
    if failAt = some i then .error i
    else moveConstructLoop old failAt (newBuf.set i (old.getD i default)) (i + 1) remaining

/-- `vector::reallocate` (src/vector.h lines 79-110), instrumented with a
construction/destruction trace and an injected failure point.

* `new_capacity == 0`: only `deallocate_all()` runs (src/vector.h lines
  80-83 and 126-133) — the buffer is freed (when `begin_` is non-null) and
  the three pointers are nulled; no `destroy` call is made.
* otherwise a fresh buffer is allocated and the live elements are
  move-constructed into it; on a throw the constructed prefix `[new_begin,
  new_end)` is destroyed in forward order, the new buffer is freed and the
  exception propagates with the old state untouched; on success
  `destroy_all()` destroys `[begin_, end_)`, `deallocate_all()` frees the
  old buffer, and the pointers are repointed at the new buffer. -/
def reallocateF {α : Type} [Inhabited α] (v : Vec α) (newCapacity : Nat)
    (failAt : Option Nat) : Vec α × ReallocTrace :=
  if newCapacity = 0 then
    if v.buf.length ≠ 0 then (vecNil, { oldFreed := true }) else (v, {})
  else
    match moveConstructLoop v.buf failAt (List.replicate newCapacity default) 0 v.size with
    | .error k =>
      (v, { newDestroyed := List.range k, newFreed := true, threw := true })
    | .ok newBuf =>
      ({ buf := newBuf, size := v.size },
       { oldDestroyed := List.range v.size, oldFreed := decide (v.buf.length ≠ 0) })

/-- The state transformation of `vector::reallocate` on the non-throwing
path (the projection of `reallocateF` with no failure injected). -/
def reallocVec {α : Type} [Inhabited α] (v : Vec α) (newCapacity : Nat) : Vec α :=
  (reallocateF v newCapacity none).1

/-- `vector::ensure_capacity` (src/vector.h lines 139-143). -/
def ensureCapacity {α : Type} [Inhabited α] (v : Vec α) (newSize : Nat) : Vec α :=
  if newSize > capacity v then reallocVec v (calculateNewCapacity v newSize) else v

/-- `vector::ensure_capacity` instrumented with the reallocation trace. -/
def ensureCapacityF {α : Type} [Inhabited α] (v : Vec α) (newSize : Nat)
    (failAt : Option Nat) : Vec α × ReallocTrace :=
  if newSize > capacity v then reallocateF v (calculateNewCapacity v newSize) failAt
  else (v, {})

/-- `vector::push_back` (src/vector.h lines 734-738): ensure capacity for
`size + 1`, construct the value at `end_`, advance `end_`. -/
def pushBack {α : Type} [Inhabited α] (v : Vec α) (x : α) : Vec α :=
  let w := ensureCapacity v (v.size + 1)
  { buf := w.buf.set w.size x, size := w.size + 1 }

/-- The backward shift loop of `vector::insert(pos, count, value)`
(src/vector.h lines 667-669): `for (it = end(); it != insert_pos; --it)
*(it + count - 1) = move(*(it - 1))`.  It runs `size - offset` times,
starting at `it = size`. -/
def shiftUpLoop {α : Type} [Inhabited α] (count : Nat) (buf : List α) (it : Nat) :
    Nat → List α
  | 0 => buf
  | k + 1 =>
    shiftUpLoop count (buf.set (it + count - 1) (buf.getD (it - 1) default)) (it - 1) k

/-- The construction loop of `vector::insert(pos, count, value)`
(src/vector.h lines 672-674): `for (i = 0; i < count; ++i)
construct(insert_pos + i, value)`. -/
def constructFillLoop {α : Type} (value : α) (buf : List α) (i : Nat) : Nat → List α
  | 0 => buf
  | k + 1 => constructFillLoop value (buf.set i value) (i + 1) k

/-- `vector::insert(pos, count, value)` (src/vector.h lines 656-678).  The
iterator argument and result are represented by their offsets from
`begin()`.  Returns the new state and the returned iterator offset. -/
def insertFill {α : Type} [Inhabited α] (v : Vec α) (pos : Nat) (count : Nat)
    (value : α) : Vec α × Nat :=
  if count = 0 then (v, pos)
  else
    let offset := pos
    let w := ensureCapacity v (v.size + count)
    let buf := shiftUpLoop count w.buf w.size (w.size - offset)
    let buf := constructFillLoop value buf offset count
    ({ buf := buf, size := w.size + count }, offset)

/-- `vector::insert(pos, value)` (src/vector.h lines 621-623): delegates to
the fill overload with `count = 1`. -/
def insertOne {α : Type} [Inhabited α] (v : Vec α) (pos : Nat) (value : α) :
    Vec α × Nat :=
  insertFill v pos 1 value

/-- The forward shift loop of `vector::erase(first, last)` (src/vector.h
lines 816-818): `for (it = erase_last; it != end(); ++it)
*(it - (erase_last - erase_first)) = move(*it)`.  It runs `size - last`
times, starting at `it = last`. -/
def eraseShiftLoop {α : Type} [Inhabited α] (width : Nat) (buf : List α) (it : Nat) :
    Nat → List α
  | 0 => buf
  | k + 1 => eraseShiftLoop width (buf.set (it - width) (buf.getD it default)) (it + 1) k

/-- `vector::erase(first, last)` (src/vector.h lines 807-827), with the two
iterator arguments represented by their offsets from `begin()`.  Returns
the new state, the list of slot indices passed to `destroy` (in call
order — the loop at lines 821-823 starts at
`erase_last - (erase_last - erase_first)` and runs to the old `end()`),
and the returned iterator offset. -/
def eraseRange {α : Type} [Inhabited α] (v : Vec α) (first last : Nat) :
    Vec α × List Nat × Nat :=
  if first = last then (v, [], first)
  else
    let buf := eraseShiftLoop (last - first) v.buf last (v.size - last)
    let destroyStart := last - (last - first)
    let destroyed := List.range' destroyStart (v.size - destroyStart)
    ({ buf := buf, size := v.size - (last - first) }, destroyed, first)

/-- `vector::resize(count, value)` (src/vector.h lines 765-779). -/
def resize {α : Type} [Inhabited α] (v : Vec α) (count : Nat) (value : α) : Vec α :=
  if count > v.size then
    let w := ensureCapacity v count
    { buf := constructFillLoop value w.buf w.size (count - w.size), size := count }
  else if count < v.size then
    { buf := v.buf, size := count }
  else v

/-- `vector::shrink_to_fit` (src/vector.h lines 599-603). -/
def shrinkToFit {α : Type} [Inhabited α] (v : Vec α) : Vec α :=
  if v.size < capacity v then reallocVec v v.size else v

/-- `vector::empty` (src/vector.h lines 558-560): `begin_ == end_`. -/
def vecEmpty {α : Type} (v : Vec α) : Bool := v.size == 0

/-- The exception types thrown by the `SUGAR_THROW_*_IF` macros of
src/exceptdef.h (lines 32-48) together with the custom classes it declares
(lines 78-89).  `sugar::vector` only ever throws through the macros. -/
inductive ExcKind where
  | outOfRange
  | lengthError
  | runtimeError
  | invalidArgument
  | badAlloc
  | logicError
  | containerEmpty
  | iteratorError
deriving DecidableEq, Repr

/-- An exception value: its type and its `what` message. -/
abbrev Exc := ExcKind × String

/-- The exception kind of a fallible result, if it failed. -/
def errKind {α : Type} : Except Exc α → Option ExcKind
  | .error e => some e.1
  | .ok _ => none

/-- `vector::at` (src/vector.h lines 369-372):
`SUGAR_THROW_OUT_OF_RANGE_IF(pos >= size(), "vector::at - index out of range")`
then `return begin_[pos]`. -/
def vecAt {α : Type} [Inhabited α] (v : Vec α) (pos : Nat) : Except Exc α :=
  if pos ≥ v.size then .error (.outOfRange, "vector::at - index out of range")
  else .ok (v.buf.getD pos default)

/-- `vector::front` (src/vector.h lines 406-409):
`SUGAR_THROW_OUT_OF_RANGE_IF(empty(), "vector::front - vector is empty")`
then `return *begin_`. -/
def vecFront {α : Type} [Inhabited α] (v : Vec α) : Except Exc α :=
  if vecEmpty v then .error (.outOfRange, "vector::front - vector is empty")
  else .ok (v.buf.getD 0 default)

/-- `vector::back` (src/vector.h lines 424-427):
`SUGAR_THROW_OUT_OF_RANGE_IF(empty(), "vector::back - vector is empty")`
then `return *(end_ - 1)`. -/
def vecBack {α : Type} [Inhabited α] (v : Vec α) : Except Exc α :=
  if vecEmpty v then .error (.outOfRange, "vector::back - vector is empty")
  else .ok (v.buf.getD (v.size - 1) default)

/-- `vector::vector(vector&&)` (src/vector.h lines 236-241): the new object
steals the three pointers, the source's pointers are nulled.  Returns
(constructed vector, state of the source afterwards). -/
def vecMoveCtor {α : Type} (other : Vec α) : Vec α × Vec α :=
  ({ buf := other.buf, size := other.size }, { buf := [], size := 0 })

/-- `vector::operator=(vector&&)` (src/vector.h lines 286-301): under the
`this != &other` guard (modelled by `isSelf`), destroy and free the current
buffer, steal the source's pointers, null the source's pointers.  Returns
(state of `*this`, state of the source afterwards). -/
def vecMoveAssign {α : Type} (this other : Vec α) (isSelf : Bool) : Vec α × Vec α :=
  if isSelf then (this, other)
  else ({ buf := other.buf, size := other.size }, { buf := [], size := 0 })

/-! ## The pool allocator (src/allocator.h lines 292-412)

`pool_allocator<T, BlockSize>` holds a singly linked list of blocks, a
free-list and a cursor `block_offset_` into the current block.  The model
numbers the blocks in allocation order (the current block is the last one)
and represents a pointer abstractly as the block it lies in plus a byte
offset into that block's `data` array, or as a system-allocator pointer.
The `sizeofT` / `alignofT` / `blockSize` parameters stand for `sizeof(T)`,
`alignof(T)` and `BlockSize`; `size_t` is 64 bits wide. -/

/-- A pointer value handed out by the pool allocator. -/
inductive PoolPtr where
  | null
  | inBlock (blk : Nat) (off : Nat)
  | system (id : Nat)
deriving DecidableEq, Repr

/-- The state of a `pool_allocator`: `blocks` is the length of the
`current_block_` chain, `freeList` the free-list contents (most recently
pushed first), `blockOffset` the cursor into the current block. -/
structure Pool where
  blocks : Nat
  freeList : List PoolPtr
  blockOffset : Nat
deriving DecidableEq, Repr

/-- The default-constructed pool (src/allocator.h line 326). -/
def poolInit : Pool := { blocks := 0, freeList := [], blockOffset := 0 }

/-- `pool_allocator::allocate_block` (src/allocator.h lines 308-313):
prepend a fresh block and reset the cursor. -/
def allocateBlock (p : Pool) : Pool :=
  { blocks := p.blocks + 1, freeList := p.freeList, blockOffset := 0 }

/-- `pool_allocator::max_size` (src/allocator.h lines 399-401):
`size_type(-1) / sizeof(T)` with a 64-bit `size_t`. -/
def poolMaxSize (sizeofT : Nat) : Nat := (2 ^ 64 - 1) / sizeofT

/-- The alignment computation of `pool_allocator::allocate` (src/allocator.h
line 364): `(block_offset_ + alignment - 1) & ~(alignment - 1)`, which for a
power-of-two `alignment` rounds `block_offset_` up to the next multiple of
`alignment`; the masking is expressed arithmetically. -/
def alignMask (x alignment : Nat) : Nat :=
  (x + alignment - 1) - (x + alignment - 1) % alignment

/-- `pool_allocator::allocate` (src/allocator.h lines 340-378). -/
def poolAllocate (sizeofT alignofT blockSize : Nat) (p : Pool) (n : Nat) :
    Except Exc (Pool × PoolPtr) :=
  if n = 0 then .ok (p, .null)
  else if n > poolMaxSize sizeofT then
    .error (.lengthError, "Requested allocation size exceeds maximum")
  else
    let size := n * sizeofT
    if size ≤ blockSize / 4 then
      match p.freeList with
      | result :: rest => .ok ({ p with freeList := rest }, result)
      | [] =>
        let p1 := if p.blocks = 0 ∨ p.blockOffset + size > blockSize then
            allocateBlock p
          else p
        let alignedOffset := alignMask p1.blockOffset alignofT
        let p2 := if alignedOffset + size > blockSize then allocateBlock p1 else p1
        let alignedOffset := if alignedOffset + size > blockSize then 0 else alignedOffset
        .ok ({ p2 with blockOffset := alignedOffset + size },
             .inBlock (p2.blocks - 1) alignedOffset)
    else
      .ok (p, .system (n * sizeofT))

/-- `pool_allocator::deallocate` (src/allocator.h lines 380-397): a null
pointer is a no-op; otherwise the block list is scanned for a block whose
byte range contains `ptr`.  If one is found, *nothing* is done (the comment
at line 396 reads, translated, "small objects belonging to a Block: do
nothing") — in particular nothing is pushed onto the free-list.  If none is
found and `n * sizeof(T)` exceeds `BlockSize / 4`, the memory is released
through the system allocator.  The returned flag records whether the system
allocator's `deallocate` was called. -/
def poolDeallocate (sizeofT blockSize : Nat) (p : Pool) (ptr : PoolPtr) (n : Nat) :
    Pool × Bool :=
  match ptr with
  | .null => (p, false)
  | _ =>
    let size := n * sizeofT
    let inBlock := match ptr with
      | .inBlock blk off => decide (blk < p.blocks) && decide (off < blockSize)
      | _ => false
    if inBlock then (p, false)
    else if size > blockSize / 4 then (p, true)
    else (p, false)

/-- One iteration of the spec's pool round-trip experiment (§8): allocate
one element of a 4-byte, 4-aligned type (`int`) from a pool with the
default `BlockSize = 4096`, then immediately deallocate the returned
pointer.  The `.error` branch is unreachable for `n = 1`. -/
def roundTrip (p : Pool) : Pool :=
  match poolAllocate 4 4 4096 p 1 with
  | .error _ => p
  | .ok (p1, ptr) => (poolDeallocate 4 4096 p1 ptr 1).1

/-- `N` pool round trips starting from a fresh pool. -/
def roundTrips : Nat → Pool
  | 0 => poolInit
  | k + 1 => roundTrip (roundTrips k)

/-- The states traversed by a sequence of `push_back` calls: the starting
state followed by the state after each push. -/
def pushStates (v : Vec Nat) : List Nat → List (Vec Nat)
  | [] => [v]
  | x :: xs => v :: pushStates (pushBack v x) xs

/-- Capacity is non-decreasing along a list of vector states. -/
def capsMonotone : List (Vec Nat) → Prop
  | [] => True
  | [_] => True
  | a :: b :: rest => capacity a ≤ capacity b ∧ capsMonotone (b :: rest)

/-! ## Lemmas about the embedded operations -/

theorem moveConstructLoop_none {α : Type} [Inhabited α] (old : List α) :
    ∀ (k : Nat) (buf : List α) (i : Nat),
      ∃ r, moveConstructLoop old none buf i k = .ok r ∧ r.length = buf.length := by
  intro k
  induction k with
  | zero => exact fun buf i => ⟨buf, rfl, rfl⟩
  | succ k ih =>
    intro buf i
    obtain ⟨r, hr, hl⟩ := ih (buf.set i (old.getD i default)) (i + 1)
    refine ⟨r, ?_, by simpa using hl⟩
    simpa [moveConstructLoop] using hr

theorem moveConstructLoop_fail {α : Type} [Inhabited α] (old : List α) (N : Nat) :
    ∀ (k : Nat) (buf : List α) (i : Nat), i ≤ N → N < i + k →
      moveConstructLoop old (some N) buf i k = .error N := by
  intro k
  induction k with
  | zero => intro buf i h1 h2; omega
  | succ k ih =>
    intro buf i h1 h2
    by_cases h : N = i
    · subst h; simp [moveConstructLoop]
    · rw [moveConstructLoop, if_neg (by simp [h])]
      exact ih _ (i + 1) (by omega) (by omega)

theorem reallocVec_spec {α : Type} [Inhabited α] (v : Vec α) (c : Nat) (hc : c ≠ 0) :
    (reallocVec v c).size = v.size ∧ capacity (reallocVec v c) = c := by
  obtain ⟨r, hr, hl⟩ :=
    moveConstructLoop_none (α := α) v.buf v.size (List.replicate c default) 0
  unfold reallocVec reallocateF
  rw [if_neg hc, hr]
  exact ⟨rfl, by simpa [capacity] using hl⟩

theorem calculateNewCapacity_eq {α : Type} (v : Vec α) (n : Nat)
    (h : capacity v < n) :
    calculateNewCapacity v n = max n (if capacity v = 0 then 1 else capacity v * 2) := by
  simp only [calculateNewCapacity]
  split_ifs <;> omega

theorem ensureCapacity_noop {α : Type} [Inhabited α] (v : Vec α) (n : Nat)
    (h : n ≤ capacity v) : ensureCapacity v n = v := by
  unfold ensureCapacity
  rw [if_neg (by omega)]

theorem ensureCapacity_grow {α : Type} [Inhabited α] (v : Vec α) (n : Nat)
    (h : capacity v < n) :
    (ensureCapacity v n).size = v.size ∧
      capacity (ensureCapacity v n) =
        max n (if capacity v = 0 then 1 else capacity v * 2) := by
  have hcalc := calculateNewCapacity_eq v n h
  have hc : calculateNewCapacity v n ≠ 0 := by
    rw [hcalc]; omega
  have hs := reallocVec_spec v (calculateNewCapacity v n) hc
  unfold ensureCapacity
  rw [if_pos (by omega)]
  exact ⟨hs.1, by rw [hs.2, hcalc]⟩

theorem pushBack_spec (v : Vec Nat) (x : Nat) (h : v.size ≤ capacity v) :
    capacity v ≤ capacity (pushBack v x) ∧
      (pushBack v x).size = v.size + 1 ∧
      (pushBack v x).size ≤ capacity (pushBack v x) := by
  have hcap : capacity (pushBack v x) = capacity (ensureCapacity v (v.size + 1)) := by
    simp [pushBack, capacity]
  have hsize : (pushBack v x).size = (ensureCapacity v (v.size + 1)).size + 1 := rfl
  rcases Nat.lt_or_ge (capacity v) (v.size + 1) with hlt | hge
  · obtain ⟨h1, h2⟩ := ensureCapacity_grow v (v.size + 1) hlt
    by_cases h0 : capacity v = 0
    · rw [if_pos h0] at h2; omega
    · rw [if_neg h0] at h2; omega
  · have hno := ensureCapacity_noop v (v.size + 1) hge
    rw [hno] at hcap hsize
    omega

theorem pushStates_shape (xs : List Nat) (v : Vec Nat) :
    ∃ t, pushStates v xs = v :: t := by
  cases xs with
  | nil => exact ⟨[], rfl⟩
  | cons x xs => exact ⟨pushStates (pushBack v x) xs, rfl⟩

theorem poolDeallocate_inBlock (p : Pool) (blk off n : Nat)
    (h1 : blk < p.blocks) (h2 : off < 4096) :
    poolDeallocate 4 4096 p (.inBlock blk off) n = (p, false) := by
  simp [poolDeallocate, h1, h2]

theorem poolAllocate_step (b r : Nat) (hr : r ≤ 1022) :
    poolAllocate 4 4 4096 { blocks := b + 1, freeList := [], blockOffset := 4 * r + 4 } 1 =
      .ok ({ blocks := b + 1, freeList := [], blockOffset := 4 * r + 8 },
           .inBlock b (4 * r + 4)) := by
  have hb : ({ blocks := b + 1, freeList := [], blockOffset := 4 * r + 4 } : Pool).blocks
      = b + 1 := rfl
  have hf : ({ blocks := b + 1, freeList := [], blockOffset := 4 * r + 4 } : Pool).freeList
      = [] := rfl
  have ho : ({ blocks := b + 1, freeList := [], blockOffset := 4 * r + 4 } : Pool).blockOffset
      = 4 * r + 4 := rfl
  simp [poolAllocate, poolMaxSize, allocateBlock, alignMask, hb, hf, ho]
  split_ifs <;>
    simp [Pool.mk.injEq, PoolPtr.inBlock.injEq, Prod.ext_iff] <;> omega

theorem poolAllocate_newBlock (b : Nat) :
    poolAllocate 4 4 4096 { blocks := b + 1, freeList := [], blockOffset := 4096 } 1 =
      .ok ({ blocks := b + 2, freeList := [], blockOffset := 4 }, .inBlock (b + 1) 0) := by
  have hb : ({ blocks := b + 1, freeList := [], blockOffset := 4096 } : Pool).blocks
      = b + 1 := rfl
  have hf : ({ blocks := b + 1, freeList := [], blockOffset := 4096 } : Pool).freeList
      = [] := rfl
  have ho : ({ blocks := b + 1, freeList := [], blockOffset := 4096 } : Pool).blockOffset
      = 4096 := rfl
  simp [poolAllocate, poolMaxSize, allocateBlock, alignMask, hb, hf, ho]

theorem roundTrip_step (b r : Nat) (h : r ≤ 1023) :
    roundTrip { blocks := b + 1, freeList := [], blockOffset := 4 * r + 4 } =
      if r < 1023 then { blocks := b + 1, freeList := [], blockOffset := 4 * r + 8 }
      else { blocks := b + 2, freeList := [], blockOffset := 4 } := by
  rcases Nat.lt_or_ge r 1023 with hr | hr
  · rw [if_pos hr]
    unfold roundTrip
    rw [poolAllocate_step b r (by omega)]
    dsimp only
    rw [poolDeallocate_inBlock _ b (4 * r + 4) 1 (Nat.lt_succ_self b) (by omega)]
  · have hr23 : r = 1023 := by omega
    subst hr23
    rw [if_neg (by omega)]
    unfold roundTrip
    rw [show 4 * 1023 + 4 = 4096 from rfl, poolAllocate_newBlock b]
    dsimp only
    rw [poolDeallocate_inBlock _ (b + 1) 0 1 (Nat.lt_succ_self (b + 1)) (by omega)]

theorem roundTrips_closed : ∀ N : Nat,
    roundTrips (N + 1) =
      { blocks := N / 1024 + 1, freeList := [], blockOffset := 4 * (N % 1024) + 4 } := by
  intro N
  induction N with
  | zero => decide
  | succ N ih =>
    show roundTrip (roundTrips (N + 1)) = _
    rw [ih, roundTrip_step (N / 1024) (N % 1024) (by omega)]
    by_cases hc : N % 1024 < 1023
    · rw [if_pos hc]
      congr 1 <;> first | rfl | omega
    · rw [if_neg hc]
      congr 1 <;> first | rfl | omega

/-! ## Claim theorems -/

/-- C1: if the N-th move-construction throws during a reallocation
triggered by growth (`ensure_capacity` with `needed > capacity`), then the
already-constructed prefix of the new buffer (elements `0 .. N-1`) is
destroyed in forward order, the new buffer is freed, the exception
propagates, and the vector is left exactly in its pre-call state (same
size, capacity and elements). -/
theorem c1_growth_failure_atomic (v : Vec Nat) (needed N : Nat)
    (hg : capacity v < needed) (hN : N < v.size) :
    (ensureCapacityF v needed (some N)).2.threw = true ∧
      (ensureCapacityF v needed (some N)).1 = v ∧
      (ensureCapacityF v needed (some N)).2.newDestroyed = List.range N ∧
      (ensureCapacityF v needed (some N)).2.newFreed = true := by
  have hc : calculateNewCapacity v needed ≠ 0 := by
    rw [calculateNewCapacity_eq v needed hg]; omega
  have hfail := moveConstructLoop_fail (α := Nat) v.buf N v.size
    (List.replicate (calculateNewCapacity v needed) default) 0 (Nat.zero_le N)
    (by omega)
  unfold ensureCapacityF reallocateF
  rw [if_pos (by omega), if_neg hc, hfail]
  exact ⟨rfl, rfl, rfl, rfl⟩

/-- Witness for C1 at a concrete input: a vector of three elements grown to
capacity 4, with the move-construction of element 1 throwing. -/
theorem c1_growth_failure_atomic_witness :
    (ensureCapacityF (⟨[1, 2, 3], 3⟩ : Vec Nat) 4 (some 1)).2.threw = true ∧
      (ensureCapacityF (⟨[1, 2, 3], 3⟩ : Vec Nat) 4 (some 1)).1 = ⟨[1, 2, 3], 3⟩ ∧
      (ensureCapacityF (⟨[1, 2, 3], 3⟩ : Vec Nat) 4 (some 1)).2.newDestroyed =
        List.range 1 ∧
      (ensureCapacityF (⟨[1, 2, 3], 3⟩ : Vec Nat) 4 (some 1)).2.newFreed = true :=
  c1_growth_failure_atomic ⟨[1, 2, 3], 3⟩ 4 1 (by decide) (by decide)

/-- C2: on the vector `[10, 20, 30]`, `erase(begin, begin + 1)` should
destroy exactly the one vacated trailing slot (index 2) and no others; the
code instead starts its destroy loop at `erase_last - (erase_last -
erase_first)`, which is `erase_first` itself, and so destroys slots 0, 1
and 2 — including the two live elements just shifted into slots 0 and 1 —
before retracting `end_` past them, setting up a double-destruction when
the vector itself is destroyed. -/
theorem c2_erase_destroy_bug :
    (eraseRange (⟨[10, 20, 30], 3⟩ : Vec Nat) 0 1).2.1 = [0, 1, 2] ∧
      (eraseRange (⟨[10, 20, 30], 3⟩ : Vec Nat) 0 1).2.1 ≠ [2] ∧
      contents (eraseRange (⟨[10, 20, 30], 3⟩ : Vec Nat) 0 1).1 = [20, 30] ∧
      (eraseRange (⟨[10, 20, 30], 3⟩ : Vec Nat) 0 1).2.2 = 0 := by
  decide

/-- C3 counterexample: deallocating an in-block pointer does not push the
slot onto the free-list — the pool is returned entirely unchanged (free-list
still empty), refuting the claimed free-list push. -/
theorem c3_dealloc_counterexample :
    poolDeallocate 4 4096 ⟨1, [], 4⟩ (.inBlock 0 0) 1 = (⟨1, [], 4⟩, false) ∧
      (poolDeallocate 4 4096 ⟨1, [], 4⟩ (.inBlock 0 0) 1).1.freeList ≠
        [PoolPtr.inBlock 0 0] := by
  decide

/-- C3 as amended: `deallocate(ptr, n)` with non-null `ptr` leaves the pool
unchanged and performs no system free when `ptr` falls inside some block's
byte range (nothing is pushed onto the free-list), and frees through the
system allocator when `ptr` falls outside every block and
`n * sizeof(T) > BlockSize / 4`. -/
theorem c3_dealloc_amended (p q : Pool) (blk off n sysId k : Nat)
    (h1 : blk < p.blocks) (h2 : off < 4096) (h3 : 4096 / 4 < k * 4) :
    poolDeallocate 4 4096 p (.inBlock blk off) n = (p, false) ∧
      poolDeallocate 4 4096 q (.system sysId) k = (q, true) := by
  constructor
  · simp [poolDeallocate, h1, h2]
  · simp [poolDeallocate]
    omega

/-- Witness for C3 (amended) at concrete inputs: a one-block pool with an
in-block pointer, and a system pointer for a 2000-byte request. -/
theorem c3_dealloc_amended_witness :
    poolDeallocate 4 4096 ⟨1, [], 4⟩ (.inBlock 0 0) 1 = (⟨1, [], 4⟩, false) ∧
      poolDeallocate 4 4096 poolInit (.system 2000) 500 = (poolInit, true) :=
  c3_dealloc_amended ⟨1, [], 4⟩ poolInit 0 0 1 2000 500 (by decide) (by decide)
    (by decide)

/-- C4 counterexample: the total number of blocks allocated by repeated
allocate-then-deallocate round trips of one small (4-byte) object is *not*
bounded independent of the repetition count N — `deallocate` never returns
an in-block slot to the free-list, so every allocation carves a fresh slot
and a new block is started every 1024 round trips. -/
theorem c4_roundtrip_counterexample :
    ¬ ∃ B : Nat, ∀ N : Nat, (roundTrips N).blocks ≤ B := by
  rintro ⟨B, hB⟩
  have h := hB (1024 * B + 1)
  have h2 : (roundTrips (1024 * B + 1)).blocks = 1024 * B / 1024 + 1 := by
    rw [roundTrips_closed]
  rw [h2] at h
  omega

/-- C4 as amended: after `N + 1` round trips of a 4-byte object on the
default pool, the pool holds exactly `N / 1024 + 1` blocks — growing
without bound in N, one fresh block per 1024 round trips — and the
free-list is still empty, so no free-list slot is ever handed out at all
(in particular none is ever handed out twice while outstanding). -/
theorem c4_roundtrip_amended (N : Nat) :
    (roundTrips (N + 1)).blocks = N / 1024 + 1 ∧
      (roundTrips (N + 1)).freeList = [] := by
  rw [roundTrips_closed]
  exact ⟨rfl, rfl⟩

/-- Witness for C4 (amended) at a concrete input: one round trip yields one
block and an empty free-list. -/
theorem c4_roundtrip_amended_witness :
    (roundTrips (0 + 1)).blocks = 0 / 1024 + 1 ∧
      (roundTrips (0 + 1)).freeList = [] :=
  c4_roundtrip_amended 0

/-- C5 counterexample: `front()` on an empty vector raises the same
exception kind (`std::out_of_range`, thrown by
`SUGAR_THROW_OUT_OF_RANGE_IF`) as `at(size())`, not the distinct
`container_empty_error` kind — so a caller catching by type cannot
distinguish the empty-container case from the index-too-large case. -/
theorem c5_error_kind_counterexample :
    errKind (vecFront (vecNil : Vec Nat)) = some ExcKind.outOfRange ∧
      errKind (vecAt (⟨[5], 1⟩ : Vec Nat) 1) = some ExcKind.outOfRange ∧
      errKind (vecFront (vecNil : Vec Nat)) ≠ some ExcKind.containerEmpty ∧
      errKind (vecFront (vecNil : Vec Nat)) = errKind (vecAt (⟨[5], 1⟩ : Vec Nat) 1) := by
  decide

/-- C5 as amended: `at(size())` raises out-of-range and `at(size() - 1)` on
a non-empty vector succeeds; `front()` and `back()` on an empty vector also
raise the out-of-range kind — the same exception type as the
index-too-large error, distinguishable only by the message text. -/
theorem c5_bounds_amended (v w : Vec Nat) (h : 0 < v.size) (hw : w.size = 0) :
    vecAt v v.size = .error (.outOfRange, "vector::at - index out of range") ∧
      (∃ x, vecAt v (v.size - 1) = .ok x) ∧
      vecFront w = .error (.outOfRange, "vector::front - vector is empty") ∧
      vecBack w = .error (.outOfRange, "vector::back - vector is empty") := by
  refine ⟨?_, ?_, ?_, ?_⟩
  · simp [vecAt]
  · exact ⟨v.buf.getD (v.size - 1) default, by simp [vecAt]; omega⟩
  · simp [vecFront, vecEmpty, hw]
  · simp [vecBack, vecEmpty, hw]

/-- Witness for C5 (amended) at concrete inputs: the singleton vector
`[5]` and the empty vector. -/
theorem c5_bounds_amended_witness :
    vecAt (⟨[5], 1⟩ : Vec Nat) 1 =
        .error (.outOfRange, "vector::at - index out of range") ∧
      (∃ x, vecAt (⟨[5], 1⟩ : Vec Nat) 0 = .ok x) ∧
      vecFront (vecNil : Vec Nat) =
        .error (.outOfRange, "vector::front - vector is empty") ∧
      vecBack (vecNil : Vec Nat) =
        .error (.outOfRange, "vector::back - vector is empty") :=
  c5_bounds_amended ⟨[5], 1⟩ vecNil (by decide) (by decide)

/-- C6: `ensure_capacity(needed)` is a no-op when `needed ≤ capacity`, and
otherwise reallocates to exactly
`max(needed, capacity == 0 ? 1 : capacity * 2)`, preserving the size. -/
theorem c6_ensure_capacity (v : Vec Nat) (needed : Nat) :
    (needed ≤ capacity v → ensureCapacity v needed = v) ∧
      (capacity v < needed →
        capacity (ensureCapacity v needed) =
            max needed (if capacity v = 0 then 1 else capacity v * 2) ∧
          (ensureCapacity v needed).size = v.size) := by
  constructor
  · exact fun h => ensureCapacity_noop v needed h
  · intro h
    obtain ⟨h1, h2⟩ := ensureCapacity_grow v needed h
    exact ⟨h2, h1⟩

/-- Witness for C6 at concrete inputs: the no-op direction on a vector of
capacity 2 with `needed = 1`, and the growth direction with `needed = 3`. -/
theorem c6_ensure_capacity_witness :
    ensureCapacity (⟨[1, 2], 2⟩ : Vec Nat) 1 = ⟨[1, 2], 2⟩ ∧
      capacity (ensureCapacity (⟨[1, 2], 2⟩ : Vec Nat) 3) =
        max 3 (if capacity (⟨[1, 2], 2⟩ : Vec Nat) = 0 then 1
          else capacity (⟨[1, 2], 2⟩ : Vec Nat) * 2) :=
  ⟨(c6_ensure_capacity ⟨[1, 2], 2⟩ 1).1 (by decide),
   ((c6_ensure_capacity ⟨[1, 2], 2⟩ 3).2 (by decide)).1⟩

/-- C7 counterexample: on a vector holding one live element,
`reallocate(0)` makes no `destroy` call at all (it only runs
`deallocate_all`), refuting the claim that all live elements are
destroyed. -/
theorem c7_realloc_zero_counterexample :
    (reallocateF (⟨[7], 1⟩ : Vec Nat) 0 none).2.oldDestroyed = [] ∧
      (⟨[7], 1⟩ : Vec Nat).size = 1 ∧
      (reallocateF (⟨[7], 1⟩ : Vec Nat) 0 none).2.oldDestroyed ≠ List.range 1 := by
  decide

/-- C7 as amended: `reallocate(0)` on a vector with a non-null buffer frees
the buffer and resets all three pointers to null, but destroys no element;
at every call site in the repository reaching this branch the vector has
size 0, so no live element exists to destroy there. -/
theorem c7_realloc_zero_amended (v : Vec Nat) (h : 0 < capacity v) :
    (reallocateF v 0 none).1 = vecNil ∧
      (reallocateF v 0 none).2.oldFreed = true ∧
      (reallocateF v 0 none).2.oldDestroyed = [] := by
  have hlen : v.buf.length ≠ 0 := by
    simpa [capacity] using Nat.pos_iff_ne_zero.mp h
  unfold reallocateF
  rw [if_pos rfl, if_pos hlen]
  exact ⟨rfl, rfl, rfl⟩

/-- Witness for C7 (amended) at a concrete input: the vector `[7]` of
capacity 1. -/
theorem c7_realloc_zero_amended_witness :
    (reallocateF (⟨[7], 1⟩ : Vec Nat) 0 none).1 = vecNil ∧
      (reallocateF (⟨[7], 1⟩ : Vec Nat) 0 none).2.oldFreed = true ∧
      (reallocateF (⟨[7], 1⟩ : Vec Nat) 0 none).2.oldDestroyed = [] :=
  c7_realloc_zero_amended ⟨[7], 1⟩ (by decide)

/-- C8: along any sequence of `push_back` calls starting from a vector
satisfying the representation invariant `size ≤ capacity`, the capacity is
non-decreasing from each state to the next and `size ≤ capacity` holds at
every traversed state. -/
theorem c8_pushback_invariants (v : Vec Nat) (xs : List Nat)
    (h : v.size ≤ capacity v) :
    capsMonotone (pushStates v xs) ∧
      ∀ w ∈ pushStates v xs, w.size ≤ capacity w := by
  induction xs generalizing v with
  | nil =>
    exact ⟨trivial, by intro w hw; simp [pushStates] at hw; simpa [hw] using h⟩
  | cons x xs ih =>
    obtain ⟨hmono, hall⟩ := ih (pushBack v x) (pushBack_spec v x h).2.2
    obtain ⟨t, ht⟩ := pushStates_shape xs (pushBack v x)
    constructor
    · show capsMonotone (v :: pushStates (pushBack v x) xs)
      rw [ht]
      refine ⟨(pushBack_spec v x h).1, ?_⟩
      rw [← ht]
      exact hmono
    · intro w hw
      rcases List.mem_cons.mp hw with hw | hw
      · simpa [hw] using h
      · exact hall w hw

/-- Witness for C8 at a concrete input: pushing `[1, 2, 3]` onto the empty
vector. -/
theorem c8_pushback_invariants_witness :
    capsMonotone (pushStates vecNil [1, 2, 3]) ∧
      ∀ w ∈ pushStates vecNil [1, 2, 3], w.size ≤ capacity w :=
  c8_pushback_invariants vecNil [1, 2, 3] (by decide)

/-- C9: the spec's end-to-end scenario.  Starting empty: push 1..5 gives
size 5, capacity ≥ 5 and contents `[1,2,3,4,5]`; `insert` at index 1 of 99
gives `[1,99,2,3,4,5]`; `erase` of index range `[0, 2)` gives `[2,3,4,5]`;
`resize(2)` gives `[2,3]` with the capacity unchanged; `shrink_to_fit()`
leaves capacity 2. -/
theorem c9_scenario :
    (let v5 := pushBack (pushBack (pushBack (pushBack
        (pushBack (vecNil : Vec Nat) 1) 2) 3) 4) 5
     let v6 := (insertOne v5 1 99).1
     let v7 := (eraseRange v6 0 2).1
     let v8 := resize v7 2 0
     let v9 := shrinkToFit v8
     v5.size = 5 ∧ 5 ≤ capacity v5 ∧ contents v5 = [1, 2, 3, 4, 5] ∧
       contents v6 = [1, 99, 2, 3, 4, 5] ∧
       contents v7 = [2, 3, 4, 5] ∧
       contents v8 = [2, 3] ∧ capacity v8 = capacity v7 ∧
       capacity v9 = 2) := by
  decide

/-- C10: a vector used as the source of a move construction, or of a move
assignment onto a distinct vector, is afterwards left with all three
pointers null — the state of a freshly default-constructed vector (size 0,
capacity 0) — so subsequent operations on it behave as on a fresh vector. -/
theorem c10_moved_from_empty (v d : Vec Nat) :
    (vecMoveCtor v).2 = vecNil ∧
      (vecMoveAssign d v false).2 = vecNil ∧
      (vecMoveCtor v).1 = v ∧
      (vecMoveAssign d v false).1 = v := by
  exact ⟨rfl, rfl, rfl, rfl⟩

/-- Witness for C10 at a concrete input: moving from `[1, 2]` (capacity 2)
into a fresh object and onto `[9]`. -/
theorem c10_moved_from_empty_witness :
    (vecMoveCtor (⟨[1, 2], 2⟩ : Vec Nat)).2 = vecNil ∧
      (vecMoveAssign (⟨[9], 1⟩ : Vec Nat) ⟨[1, 2], 2⟩ false).2 = vecNil ∧
      (vecMoveCtor (⟨[1, 2], 2⟩ : Vec Nat)).1 = ⟨[1, 2], 2⟩ ∧
      (vecMoveAssign (⟨[9], 1⟩ : Vec Nat) ⟨[1, 2], 2⟩ false).1 = ⟨[1, 2], 2⟩ :=
  c10_moved_from_empty ⟨[1, 2], 2⟩ ⟨[9], 1⟩

end MiniSTL
